import Mathlib

/-! # unlockOptaNORFlash: sequencing of the QSPI flash recovery procedure

A shallow embedding of `src/unlockOptaNORFlash.cpp`.

The sketch talks to three collaborators: the `mbed::QSPI` transport, the
console (`printf`) and the board (`pinMode`, `delay`).  Every call to one of
them is recorded, in program order, in a trace of `Event`s.  The transport is a
parameter of the model: it decides the status code (and the byte read back) of
each call from the whole history of the run, so a statement quantified over
`QSPI` holds for every behaviour of the bus.

Machine integers: `qspi_status_t` is an `Int` (`0` is `QSPI_STATUS_OK`),
a byte of a receive buffer is a `Nat` reduced modulo `256` (`char` is unsigned
on the target), `retries` is a `Nat` that only ever counts down from `10000`.
-/

namespace UnlockOptaNORFlash

/-! ## Data model -/

/-- One observable action of the sketch.  A `command_transfer` event carries the
request (`instruction`, `address` with `-1` for "no address", the bytes to send,
the number of bytes to read) and the reply of the transport (`status` and the
byte it answered with, which lands in the receive buffer when `rx_len` is 1). -/
inductive Event where
  | printf (fmt : String) (args : List Int)
  | serial_begin (baud : Nat)
  | configure_format (status : Int)
  | set_frequency (status : Int)
  | command_transfer (instruction : Nat) (address : Int) (tx : List Nat)
      (rx_len : Nat) (status : Int) (rx : Nat)
  | pinMode_QSPI_SO2_INPUT
  | delay (ms : Nat)
  deriving DecidableEq

/-- The transport `mbed::QSPI qspi`: each entry point answers from the history of
the run so far.  `command_transfer` gets the request as well and answers with
the status code and the byte it stores in the receive buffer. -/
structure QSPI where
  configure_format : List Event → Int
  set_frequency : List Event → Int
  command_transfer : List Event → Nat → Int → List Nat → Nat → Int × Nat

/-- The mutable globals of the sketch: `qspi_status_t status` and the record of
everything done so far. -/
structure State where
  status : Int
  trace : List Event

/-- The state at reset: nothing has happened yet. -/
def State.boot : State := { status := 0, trace := [] }

/-! ## Primitive actions -/

/-- Append one event to the record. -/
def emit (e : Event) (s : State) : State :=
  { s with trace := s.trace ++ [e] }

/-- Model of `printf(fmt, args...)`. -/
def printf (fmt : String) (args : List Int) (s : State) : State :=
  emit (Event.printf fmt args) s

/-- Model of `delay(ms)`. -/
def delay (ms : Nat) (s : State) : State :=
  emit (Event.delay ms) s

/-- Model of `pinMode(QSPI_SO2, INPUT)`. -/
def pinMode (s : State) : State :=
  emit Event.pinMode_QSPI_SO2_INPUT s

/-- The event recorded by a command transfer issued in state `s`. -/
def transferEvent (q : QSPI) (instruction : Nat) (address : Int) (tx : List Nat)
    (rx_len : Nat) (s : State) : Event :=
  Event.command_transfer instruction address tx rx_len
    (q.command_transfer s.trace instruction address tx rx_len).1
    ((q.command_transfer s.trace instruction address tx rx_len).2 % 256)

/-- Model of `status = qspi.command_transfer(instruction, address, tx, tx_len, rx, rx_len)`:
returns the status code, the byte now in the receive buffer, and the new state. -/
def command_transfer (q : QSPI) (instruction : Nat) (address : Int) (tx : List Nat)
    (rx_len : Nat) (s : State) : Int × Nat × State :=
  let r := q.command_transfer s.trace instruction address tx rx_len
  (r.1, r.2 % 256,
    { status := r.1,
      trace := s.trace ++ [transferEvent q instruction address tx rx_len s] })

/-! ## The sketch -/

/-- The `do { ... } while (retries)` loop of `_waitForReady` (lines 67-86).
The argument `retries` is the value of the counter right after `retries--`. -/
def waitLoop (q : QSPI) (retries : Nat) (s : State) : Bool × State :=
  let r := command_transfer q 0x05 (-1) [] 1 s
  if r.1 ≠ 0 then
    (false, printf "ERROR: command_transfer() status: %d\n" [r.1] r.2.2)
  else if r.2.1 &&& 0x01 = 0 then
    (true, r.2.2)
  else
    match retries with
    | 0 => (false, delay 1 r.2.2)
    | n + 1 => waitLoop q n (delay 1 r.2.2)

/-- Model of `_waitForReady` (lines 63-89): `int retries = 10000`, decremented
on entry to the loop body. -/
def _waitForReady (q : QSPI) (s : State) : Bool × State :=
  waitLoop q (10000 - 1) s

/-- Model of `_writeEnable` (lines 92-126). -/
def _writeEnable (q : QSPI) (s : State) : State :=
  let s := printf "_writeEnable()\n" [] s
  let w := _waitForReady q s
  if w.1 = false then
    printf "ERROR: not ready (WIP==1)\n" [] w.2
  else
    let r := command_transfer q 0x06 (-1) [] 0 w.2
    let s := if r.1 ≠ 0 then printf "command_transfer: %d\n" [r.1] r.2.2 else r.2.2
    let w := _waitForReady q s
    if w.1 = false then
      printf "ERROR: not ready (WIP==1)\n" [] w.2
    else
      let r := command_transfer q 0x05 (-1) [] 1 w.2
      if r.1 ≠ 0 then
        printf "ERROR: command_transfer() status: %d\n" [r.1] r.2.2
      else
        r.2.2

/-- Model of `configureQSPI` (lines 128-153). -/
def configureQSPI (q : QSPI) (s : State) : Bool × State :=
  let st := q.configure_format s.trace
  let s : State := { status := st, trace := s.trace ++ [Event.configure_format st] }
  if st ≠ 0 then
    (false, printf "ERROR: configure_format() status: %d\n" [st] s)
  else
    let st := q.set_frequency s.trace
    let s : State := { status := st, trace := s.trace ++ [Event.set_frequency st] }
    if st ≠ 0 then
      (false, printf "ERROR: set_frequency() status: %d\n" [st] s)
    else
      (true, s)

/-- The value printed for one flag: `(buf & mask) ? 1 : 0`. -/
def flag (b mask : Nat) : Int :=
  if b &&& mask ≠ 0 then 1 else 0

/-- The dump of status register 1 (lines 172-180). -/
def printStatus1 (b : Nat) (s : State) : State :=
  s |> printf "Status Register 1: 0x%02x\n" [(b : Int)]
    |> printf "    Write in Progress  (WIP): %d\n" [flag b 0x01]
    |> printf "    Write Enable Latch (WEL): %d\n" [flag b 0x02]
    |> printf "    *BP0: %d\n" [flag b 0x04]
    |> printf "    *BP1: %d\n" [flag b 0x08]
    |> printf "    *BP2: %d\n" [flag b 0x10]
    |> printf "    *BP3: %d\n" [flag b 0x20]
    |> printf "    *BP4: %d\n" [flag b 0x40]
    |> printf "    *Status Register Protect (SRP0): %d\n" [flag b 0x80]

/-- The dump of status register 2 (lines 188-196). -/
def printStatus2 (b : Nat) (s : State) : State :=
  s |> printf "Status Register 2: 0x%02x\n" [(b : Int)]
    |> printf "    *Status Register Protect (SRP1): %d\n" [flag b 0x01]
    |> printf "    *Quad Enable (QE): %d\n" [flag b 0x02]
    |> printf "    SUS2: %d\n" [flag b 0x04]
    |> printf "    LB1: %d\n" [flag b 0x08]
    |> printf "    LB2: %d\n" [flag b 0x10]
    |> printf "    LB3: %d\n" [flag b 0x20]
    |> printf "    CMP: %d\n" [flag b 0x40]
    |> printf "    SUS2: %d\n" [flag b 0x80]

/-- The dump of status register 3 (lines 204-208). -/
def printStatus3 (b : Nat) (s : State) : State :=
  s |> printf "Status Register 3: 0x%02x\n" [(b : Int)]
    |> printf "    DRV0: %d\n" [flag b 0x20]
    |> printf "    DRV1: %d\n" [flag b 0x40]
    |> printf "\n" []

/-- Model of `readStatusRegister` (lines 155-210). -/
def readStatusRegister (q : QSPI) (s : State) : State :=
  let s := printf "readStatusRegister()\n" [] s
  let r := command_transfer q 0x05 (-1) [] 1 s
  if r.1 ≠ 0 then
    printf "ERROR: command_transfer() status: %d\n" [r.1] r.2.2
  else
    let s := printStatus1 r.2.1 r.2.2
    let r := command_transfer q 0x35 (-1) [] 1 s
    if r.1 ≠ 0 then
      printf "ERROR: command_transfer() status: %d\n" [r.1] r.2.2
    else
      let s := printStatus2 r.2.1 r.2.2
      let r := command_transfer q 0x15 (-1) [] 1 s
      if r.1 ≠ 0 then
        printf "ERROR: command_transfer() status: %d\n" [r.1] r.2.2
      else
        printStatus3 r.2.1 r.2.2

/-- Model of `resetFlashProtection` (lines 216-242); `char reg = 0` is the
one-byte payload. -/
def resetFlashProtection (q : QSPI) (s : State) : State :=
  let s := printf "resetFlashProtection()\n" [] s
  let w := _waitForReady q s
  if w.1 = false then
    printf "ERROR: not ready (WIP==1)\n" [] w.2
  else
    let s := _writeEnable q w.2
    let r := command_transfer q 0x01 (-1) [0] 0 s
    let s := if r.1 ≠ 0 then printf "command_transfer: %d\n" [r.1] r.2.2 else r.2.2
    let w := _waitForReady q s
    if w.1 = false then
      printf "ERROR: not ready (WIP==1)\n" [] w.2
    else
      w.2

/-- Model of `setup` (lines 245-303).  The console is taken to be attached, so
`while (!Serial);` falls through; the result of `configureQSPI()` is discarded,
as in the source. -/
def setup (q : QSPI) (s : State) : State :=
  let s := emit (Event.serial_begin 115200) s
  let s := printf "start\n" [] s
  let s := (configureQSPI q s).2
  let s := pinMode s
  let s := printf "---- current status ----\n" [] s
  let s := readStatusRegister q s
  let s := printf "---- write enable + checking WEL bit ----\n" [] s
  let s := _writeEnable q s
  let s := readStatusRegister q s
  let s := printf "---- reset flash protection ----\n" [] s
  let s := resetFlashProtection q s
  let s := printf "---- verify status register ----\n" [] s
  let s := readStatusRegister q s
  printf "---end---\n" [] s

/-- Whether a run of `_writeEnable` from `s` gets through without taking any of its
error branches: both readiness waits succeed, and the write-enable transfer
(opcode 0x06) and the final status read both return status 0. -/
def writeEnableCompleted (q : QSPI) (s : State) : Bool :=
  let s := printf "_writeEnable()\n" [] s
  let w := _waitForReady q s
  if w.1 = false then
    false
  else
    let r := command_transfer q 0x06 (-1) [] 0 w.2
    if r.1 ≠ 0 then
      false
    else
      let w := _waitForReady q r.2.2
      if w.1 = false then
        false
      else
        let r := command_transfer q 0x05 (-1) [] 1 w.2
        if r.1 ≠ 0 then false else true

/-! ## Views of a trace -/

/-- The opcode of a command transfer; `none` for any other event. -/
def Event.opcode : Event → Option Nat
  | Event.command_transfer i _ _ _ _ _ => some i
  | _ => none

/-- The opcodes of the command transfers of a trace, in order. -/
def transfers (tr : List Event) : List Nat :=
  tr.filterMap Event.opcode

/-- A request on the bus or the board, without the reply. -/
inductive BusOp where
  | configure_format
  | set_frequency
  | command (instruction : Nat) (address : Int) (tx : List Nat) (rx_len : Nat)
  | pinMode
  deriving DecidableEq

/-- The bus operation behind an event; console output and delays are none. -/
def Event.busOp : Event → Option BusOp
  | Event.configure_format _ => some BusOp.configure_format
  | Event.set_frequency _ => some BusOp.set_frequency
  | Event.command_transfer i a tx n _ _ => some (BusOp.command i a tx n)
  | Event.pinMode_QSPI_SO2_INPUT => some BusOp.pinMode
  | _ => none

/-- The bus operations of a trace, in order. -/
def busOps (tr : List Event) : List BusOp :=
  tr.filterMap Event.busOp

/-! ## Scenario A of the specification, and sample transports -/

/-- End-to-end scenario A as the specification lists it; `configure` stands for the
two calls a successful `configureQSPI` makes. -/
def scenarioA : List BusOp :=
  [BusOp.configure_format, BusOp.set_frequency,
   BusOp.command 0x05 (-1) [] 1,
   BusOp.pinMode,
   BusOp.command 0x05 (-1) [] 1, BusOp.command 0x06 (-1) [] 0,
   BusOp.command 0x05 (-1) [] 1, BusOp.command 0x05 (-1) [] 1,
   BusOp.command 0x06 (-1) [] 0, BusOp.command 0x05 (-1) [] 1,
   BusOp.command 0x01 (-1) [0x00] 0,
   BusOp.command 0x05 (-1) [] 1, BusOp.command 0x05 (-1) [] 1,
   BusOp.command 0x35 (-1) [] 1, BusOp.command 0x15 (-1) [] 1]

/-- A healthy bus with an idle, unprotected chip: every call succeeds, every byte
read is 0x00. -/
def idleBus : QSPI :=
  { configure_format := fun _ => 0
    set_frequency := fun _ => 0
    command_transfer := fun _ _ _ _ _ => (0, 0x00) }

/-- A healthy bus with an idle chip whose protection bits are all set: every byte
read is 0xFC. -/
def protectedBus : QSPI :=
  { configure_format := fun _ => 0
    set_frequency := fun _ => 0
    command_transfer := fun _ _ _ _ _ => (0, 0xFC) }

/-- A healthy bus with a chip that never leaves the busy state: every byte read
is 0x01. -/
def busyBus : QSPI :=
  { configure_format := fun _ => 0
    set_frequency := fun _ => 0
    command_transfer := fun _ _ _ _ _ => (0, 0x01) }

/-- A bus on which every command transfer fails with `QSPI_STATUS_ERROR` (-1). -/
def deadBus : QSPI :=
  { configure_format := fun _ => 0
    set_frequency := fun _ => 0
    command_transfer := fun _ _ _ _ _ => (-1, 0x00) }

/-- A bus that rejects the format (`configure_format` returns -1) and otherwise
behaves like `idleBus`. -/
def unconfiguredBus : QSPI :=
  { configure_format := fun _ => -1
    set_frequency := fun _ => 0
    command_transfer := fun _ _ _ _ _ => (0, 0x00) }

/-- A bus that fails the write-enable command (opcode 0x06) with status -1 and
otherwise behaves like `idleBus`. -/
def wrenRejectingBus : QSPI :=
  { configure_format := fun _ => 0
    set_frequency := fun _ => 0
    command_transfer := fun _ i _ _ _ => if i = 0x06 then (-1, 0x00) else (0, 0x00) }

/-- A bus whose second command transfer of the run fails with status -1; every
other call succeeds and reads 0x00. -/
def flakyBus : QSPI :=
  { configure_format := fun _ => 0
    set_frequency := fun _ => 0
    command_transfer := fun h _ _ _ _ =>
      if (transfers h).length = 1 then (-1, 0x00) else (0, 0x00) }

/-! ## Basic facts about the primitives -/

@[simp] theorem emit_trace (e : Event) (s : State) : (emit e s).trace = s.trace ++ [e] := rfl

@[simp] theorem printf_trace (fmt : String) (args : List Int) (s : State) :
    (printf fmt args s).trace = s.trace ++ [Event.printf fmt args] := rfl

@[simp] theorem delay_trace (ms : Nat) (s : State) :
    (delay ms s).trace = s.trace ++ [Event.delay ms] := rfl

@[simp] theorem pinMode_trace (s : State) :
    (pinMode s).trace = s.trace ++ [Event.pinMode_QSPI_SO2_INPUT] := rfl

@[simp] theorem command_transfer_status (q : QSPI) (i : Nat) (a : Int) (tx : List Nat) (n : Nat)
    (s : State) :
    (command_transfer q i a tx n s).1 = (q.command_transfer s.trace i a tx n).1 := rfl

@[simp] theorem command_transfer_byte (q : QSPI) (i : Nat) (a : Int) (tx : List Nat) (n : Nat)
    (s : State) :
    (command_transfer q i a tx n s).2.1 = (q.command_transfer s.trace i a tx n).2 % 256 := rfl

@[simp] theorem command_transfer_trace (q : QSPI) (i : Nat) (a : Int) (tx : List Nat) (n : Nat)
    (s : State) :
    (command_transfer q i a tx n s).2.2.trace = s.trace ++ [transferEvent q i a tx n s] := rfl

@[simp] theorem transfers_nil : transfers [] = [] := rfl

@[simp] theorem transfers_append (a b : List Event) :
    transfers (a ++ b) = transfers a ++ transfers b := by
  simp [transfers, List.filterMap_append]

@[simp] theorem transfers_cons_command (i : Nat) (a : Int) (tx : List Nat) (n : Nat) (st : Int)
    (rx : Nat) (l : List Event) :
    transfers (Event.command_transfer i a tx n st rx :: l) = i :: transfers l := rfl

@[simp] theorem transfers_cons_transferEvent (q : QSPI) (i : Nat) (a : Int) (tx : List Nat)
    (n : Nat) (s : State) (l : List Event) :
    transfers (transferEvent q i a tx n s :: l) = i :: transfers l := rfl

@[simp] theorem transfers_cons_printf (fmt : String) (args : List Int) (l : List Event) :
    transfers (Event.printf fmt args :: l) = transfers l := rfl

@[simp] theorem transfers_cons_serial_begin (baud : Nat) (l : List Event) :
    transfers (Event.serial_begin baud :: l) = transfers l := rfl

@[simp] theorem transfers_cons_configure_format (st : Int) (l : List Event) :
    transfers (Event.configure_format st :: l) = transfers l := rfl

@[simp] theorem transfers_cons_set_frequency (st : Int) (l : List Event) :
    transfers (Event.set_frequency st :: l) = transfers l := rfl

@[simp] theorem transfers_cons_pinMode (l : List Event) :
    transfers (Event.pinMode_QSPI_SO2_INPUT :: l) = transfers l := rfl

@[simp] theorem transfers_cons_delay (ms : Nat) (l : List Event) :
    transfers (Event.delay ms :: l) = transfers l := rfl

/-- Bit 0 of a received byte, as tested by `buf[0] & 0x01`. -/
theorem byte_mod_two (x : Nat) : x % 256 % 2 = x % 2 :=
  Nat.mod_mod_of_dvd x (by decide)

/-! ## One turn of the polling loop -/

theorem waitLoop_of_error (q : QSPI) (r : Nat) (s : State)
    (h : (q.command_transfer s.trace 0x05 (-1) [] 1).1 ≠ 0) :
    waitLoop q r s
      = (false, printf "ERROR: command_transfer() status: %d\n"
          [(q.command_transfer s.trace 0x05 (-1) [] 1).1]
          (command_transfer q 0x05 (-1) [] 1 s).2.2) := by
  unfold waitLoop
  simp [h]

theorem waitLoop_of_ready (q : QSPI) (r : Nat) (s : State)
    (h0 : (q.command_transfer s.trace 0x05 (-1) [] 1).1 = 0)
    (h1 : (q.command_transfer s.trace 0x05 (-1) [] 1).2 % 2 = 0) :
    waitLoop q r s = (true, (command_transfer q 0x05 (-1) [] 1 s).2.2) := by
  unfold waitLoop
  simp [h0, byte_mod_two, h1]

theorem waitLoop_of_busy_zero (q : QSPI) (s : State)
    (h0 : (q.command_transfer s.trace 0x05 (-1) [] 1).1 = 0)
    (h1 : (q.command_transfer s.trace 0x05 (-1) [] 1).2 % 2 = 1) :
    waitLoop q 0 s = (false, delay 1 (command_transfer q 0x05 (-1) [] 1 s).2.2) := by
  unfold waitLoop
  simp [h0, byte_mod_two, h1]

theorem waitLoop_of_busy_succ (q : QSPI) (n : Nat) (s : State)
    (h0 : (q.command_transfer s.trace 0x05 (-1) [] 1).1 = 0)
    (h1 : (q.command_transfer s.trace 0x05 (-1) [] 1).2 % 2 = 1) :
    waitLoop q (n + 1) s = waitLoop q n (delay 1 (command_transfer q 0x05 (-1) [] 1 s).2.2) := by
  rw [waitLoop]
  simp [h0, byte_mod_two, h1]

/-- The three ways one turn of the loop can go. -/
theorem poll_cases (q : QSPI) (s : State) :
    (q.command_transfer s.trace 0x05 (-1) [] 1).1 ≠ 0 ∨
    ((q.command_transfer s.trace 0x05 (-1) [] 1).1 = 0 ∧
      (q.command_transfer s.trace 0x05 (-1) [] 1).2 % 2 = 0) ∨
    ((q.command_transfer s.trace 0x05 (-1) [] 1).1 = 0 ∧
      (q.command_transfer s.trace 0x05 (-1) [] 1).2 % 2 = 1) := by
  by_cases h : (q.command_transfer s.trace 0x05 (-1) [] 1).1 = 0
  · rcases Nat.mod_two_eq_zero_or_one (q.command_transfer s.trace 0x05 (-1) [] 1).2 with h1 | h1
    · exact Or.inr (Or.inl ⟨h, h1⟩)
    · exact Or.inr (Or.inr ⟨h, h1⟩)
  · exact Or.inl h

/-- The loop only ever adds to the record, and what it adds holds between one and
`retries + 1` command transfers, all of them reads of status register 1. -/
theorem waitLoop_trace (q : QSPI) (r : Nat) (s : State) :
    ∃ out k, (waitLoop q r s).2.trace = s.trace ++ out ∧
      transfers out = List.replicate k 0x05 ∧ 1 ≤ k ∧ k ≤ r + 1 := by
  induction r generalizing s with
  | zero =>
    rcases poll_cases q s with h | ⟨h0, h1⟩ | ⟨h0, h1⟩
    · exact ⟨[transferEvent q 0x05 (-1) [] 1 s, Event.printf "ERROR: command_transfer() status: %d\n"
          [(q.command_transfer s.trace 0x05 (-1) [] 1).1]], 1,
        by rw [waitLoop_of_error q 0 s h]; simp, by simp, by omega, by omega⟩
    · exact ⟨[transferEvent q 0x05 (-1) [] 1 s], 1, by rw [waitLoop_of_ready q 0 s h0 h1]; simp,
        by simp, by omega, by omega⟩
    · exact ⟨[transferEvent q 0x05 (-1) [] 1 s, Event.delay 1], 1,
        by rw [waitLoop_of_busy_zero q s h0 h1]; simp, by simp,
        by omega, by omega⟩
  | succ n ih =>
    rcases poll_cases q s with h | ⟨h0, h1⟩ | ⟨h0, h1⟩
    · exact ⟨[transferEvent q 0x05 (-1) [] 1 s, Event.printf "ERROR: command_transfer() status: %d\n"
          [(q.command_transfer s.trace 0x05 (-1) [] 1).1]], 1,
        by rw [waitLoop_of_error q _ s h]; simp, by simp, by omega, by omega⟩
    · exact ⟨[transferEvent q 0x05 (-1) [] 1 s], 1, by rw [waitLoop_of_ready q _ s h0 h1]; simp,
        by simp, by omega, by omega⟩
    · obtain ⟨out, k, ht, hk, hk1, hk2⟩ := ih (delay 1 (command_transfer q 0x05 (-1) [] 1 s).2.2)
      refine ⟨transferEvent q 0x05 (-1) [] 1 s :: Event.delay 1 :: out, k + 1, ?_, ?_, by omega, by omega⟩
      · rw [waitLoop_of_busy_succ q n s h0 h1, ht]
        simp
      · simp [hk, List.replicate_succ]


/-- A transport that always answers a read of status register 1 with success
and the busy bit set keeps the loop going to the end of its budget. -/
theorem waitLoop_busy (q : QSPI)
    (hb : ∀ h a tx n, (q.command_transfer h 0x05 a tx n).1 = 0 ∧
      (q.command_transfer h 0x05 a tx n).2 % 2 = 1)
    (r : Nat) (s : State) :
    (waitLoop q r s).1 = false ∧
      ∃ out, (waitLoop q r s).2.trace = s.trace ++ out ∧
        transfers out = List.replicate (r + 1) 0x05 := by
  induction r generalizing s with
  | zero =>
    rw [waitLoop_of_busy_zero q s (hb _ _ _ _).1 (hb _ _ _ _).2]
    exact ⟨rfl, [transferEvent q 0x05 (-1) [] 1 s, Event.delay 1], by simp, by simp⟩
  | succ n ih =>
    rw [waitLoop_of_busy_succ q n s (hb _ _ _ _).1 (hb _ _ _ _).2]
    obtain ⟨hf, out, ht, hk⟩ := ih (delay 1 (command_transfer q 0x05 (-1) [] 1 s).2.2)
    refine ⟨hf, transferEvent q 0x05 (-1) [] 1 s :: Event.delay 1 :: out, ?_, ?_⟩
    · rw [ht]
      simp
    · simp [hk, List.replicate_succ]

/-- A failed read ends the loop: the only thing recorded after it is the error
message, whatever budget is left. -/
theorem waitLoop_error_last (q : QSPI) (r : Nat) (s : State) (pre post : List Event)
    (i : Nat) (a : Int) (tx : List Nat) (n : Nat) (st : Int) (rx : Nat)
    (h : (waitLoop q r s).2.trace
      = s.trace ++ (pre ++ Event.command_transfer i a tx n st rx :: post))
    (hst : st ≠ 0) :
    (waitLoop q r s).1 = false ∧
      post = [Event.printf "ERROR: command_transfer() status: %d\n" [st]] := by
  induction r generalizing s pre with
  | zero =>
    rcases poll_cases q s with h' | ⟨h0, h1⟩ | ⟨h0, h1⟩
    · rw [waitLoop_of_error q 0 s h'] at h ⊢
      simp [transferEvent] at h
      rcases pre with _ | ⟨x, _ | ⟨y, pre⟩⟩ <;> simp [transferEvent] at h
      · obtain ⟨⟨-, -, -, -, h1, -⟩, h2⟩ := h
        subst h1
        exact ⟨rfl, h2.symm⟩
    · rw [waitLoop_of_ready q 0 s h0 h1] at h ⊢
      simp [transferEvent] at h
      rcases pre with _ | ⟨x, pre⟩ <;> simp [transferEvent] at h
      · exact absurd (h0.symm.trans h.1.2.2.2.2.1) hst.symm
    · rw [waitLoop_of_busy_zero q s h0 h1] at h ⊢
      simp [transferEvent] at h
      rcases pre with _ | ⟨x, _ | ⟨y, pre⟩⟩ <;> simp [transferEvent] at h
      · exact absurd (h0.symm.trans h.1.2.2.2.2.1) hst.symm
  | succ m ih =>
    rcases poll_cases q s with h' | ⟨h0, h1⟩ | ⟨h0, h1⟩
    · rw [waitLoop_of_error q _ s h'] at h ⊢
      simp [transferEvent] at h
      rcases pre with _ | ⟨x, _ | ⟨y, pre⟩⟩ <;> simp [transferEvent] at h
      · obtain ⟨⟨-, -, -, -, h1, -⟩, h2⟩ := h
        subst h1
        exact ⟨rfl, h2.symm⟩
    · rw [waitLoop_of_ready q _ s h0 h1] at h ⊢
      simp [transferEvent] at h
      rcases pre with _ | ⟨x, pre⟩ <;> simp [transferEvent] at h
      · exact absurd (h0.symm.trans h.1.2.2.2.2.1) hst.symm
    · rw [waitLoop_of_busy_succ q m s h0 h1] at h ⊢
      obtain ⟨out, k, ht, -, -, -⟩ :=
        waitLoop_trace q m (delay 1 (command_transfer q 0x05 (-1) [] 1 s).2.2)
      rw [ht] at h
      simp [transferEvent] at h
      rcases pre with _ | ⟨x, _ | ⟨y, pre⟩⟩ <;> simp [transferEvent] at h
      · exact absurd (h0.symm.trans h.1.2.2.2.2.1) hst.symm
      · obtain ⟨-, -, h3⟩ := h
        apply ih _ pre
        rw [ht, h3]


/-! ## `_waitForReady` -/

theorem waitForReady_trace (q : QSPI) (s : State) :
    ∃ out k, (_waitForReady q s).2.trace = s.trace ++ out ∧
      transfers out = List.replicate k 0x05 ∧ 1 ≤ k ∧ k ≤ 10000 :=
  waitLoop_trace q (10000 - 1) s

/-- What `_waitForReady` does when the first read already finds the chip idle. -/
theorem waitForReady_of_ready (q : QSPI) (s : State)
    (h0 : (q.command_transfer s.trace 0x05 (-1) [] 1).1 = 0)
    (h1 : (q.command_transfer s.trace 0x05 (-1) [] 1).2 % 2 = 0) :
    _waitForReady q s = (true, (command_transfer q 0x05 (-1) [] 1 s).2.2) :=
  waitLoop_of_ready q (10000 - 1) s h0 h1

/-- What `_waitForReady` does when the first read fails. -/
theorem waitForReady_of_error (q : QSPI) (s : State)
    (h : (q.command_transfer s.trace 0x05 (-1) [] 1).1 ≠ 0) :
    _waitForReady q s
      = (false, printf "ERROR: command_transfer() status: %d\n"
          [(q.command_transfer s.trace 0x05 (-1) [] 1).1]
          (command_transfer q 0x05 (-1) [] 1 s).2.2) :=
  waitLoop_of_error q (10000 - 1) s h

theorem mem_replicate_five {k i : Nat} (h : i ∈ List.replicate k 5) : i = 5 :=
  (List.mem_replicate.mp h).2

/-! ## `_writeEnable` -/

/-- When its first readiness wait fails, `_writeEnable` does nothing beyond that
wait and two messages. -/
theorem writeEnable_of_not_ready (q : QSPI) (s : State)
    (h : (_waitForReady q (printf "_writeEnable()\n" [] s)).1 = false) :
    _writeEnable q s
      = printf "ERROR: not ready (WIP==1)\n" []
          (_waitForReady q (printf "_writeEnable()\n" [] s)).2 := by
  simp [_writeEnable, h]

/-- `_writeEnable` only adds to the record, and every command it sends is a read of
status register 1 or the write-enable opcode; the latter is sent whenever the
first readiness wait succeeds. -/
theorem writeEnable_trace (q : QSPI) (s : State) :
    ∃ out, (_writeEnable q s).trace = s.trace ++ out ∧
      (∀ i ∈ transfers out, i = 0x05 ∨ i = 0x06) ∧
      ((_waitForReady q (printf "_writeEnable()\n" [] s)).1 = true → 0x06 ∈ transfers out) := by
  obtain ⟨o1, k1, ht1, hk1, -, -⟩ := waitForReady_trace q (printf "_writeEnable()\n" [] s)
  by_cases hw : (_waitForReady q (printf "_writeEnable()\n" [] s)).1 = false
  · refine ⟨Event.printf "_writeEnable()\n" [] :: o1 ++ [Event.printf "ERROR: not ready (WIP==1)\n" []],
      ?_, ?_, ?_⟩
    · rw [writeEnable_of_not_ready q s hw]
      simp [ht1]
    · intro i hi
      simp [hk1] at hi
      exact Or.inl hi.2
    · intro h
      rw [hw] at h
      exact absurd h (by decide)
  · have hrun : ∃ s6 out6, s6.trace = s.trace ++ (Event.printf "_writeEnable()\n" [] :: o1 ++ out6) ∧
        transfers out6 = [0x06] ∧
        _writeEnable q s =
          (if (_waitForReady q s6).1 = false then
            printf "ERROR: not ready (WIP==1)\n" [] (_waitForReady q s6).2
          else if (command_transfer q 0x05 (-1) [] 1 (_waitForReady q s6).2).1 ≠ 0 then
            printf "ERROR: command_transfer() status: %d\n"
              [(command_transfer q 0x05 (-1) [] 1 (_waitForReady q s6).2).1]
              (command_transfer q 0x05 (-1) [] 1 (_waitForReady q s6).2).2.2
          else (command_transfer q 0x05 (-1) [] 1 (_waitForReady q s6).2).2.2) := by
      by_cases h6 : (q.command_transfer (_waitForReady q (printf "_writeEnable()\n" [] s)).2.trace
          0x06 (-1) [] 0).1 = 0
      · refine ⟨(command_transfer q 0x06 (-1) [] 0
            (_waitForReady q (printf "_writeEnable()\n" [] s)).2).2.2,
            [transferEvent q 0x06 (-1) [] 0 (_waitForReady q (printf "_writeEnable()\n" [] s)).2],
            ?_, ?_, ?_⟩
        · simp [ht1]
        · simp
        · simp only [_writeEnable, if_neg hw]
          simp [h6]
      · refine ⟨printf "command_transfer: %d\n" [(q.command_transfer
            (_waitForReady q (printf "_writeEnable()\n" [] s)).2.trace 0x06 (-1) [] 0).1]
            (command_transfer q 0x06 (-1) [] 0
            (_waitForReady q (printf "_writeEnable()\n" [] s)).2).2.2,
            [transferEvent q 0x06 (-1) [] 0 (_waitForReady q (printf "_writeEnable()\n" [] s)).2,
             Event.printf "command_transfer: %d\n" [(q.command_transfer
              (_waitForReady q (printf "_writeEnable()\n" [] s)).2.trace 0x06 (-1) [] 0).1]],
            ?_, ?_, ?_⟩
        · simp [ht1]
        · simp
        · simp only [_writeEnable, if_neg hw]
          simp [h6]
    obtain ⟨s6, out6, hs6, ho6, hrun⟩ := hrun
    obtain ⟨o2, k2, ht2, hk2, -, -⟩ := waitForReady_trace q s6
    rw [hrun]
    by_cases hw2 : (_waitForReady q s6).1 = false
    · refine ⟨Event.printf "_writeEnable()\n" [] :: o1 ++ out6 ++ o2
          ++ [Event.printf "ERROR: not ready (WIP==1)\n" []], ?_, ?_, ?_⟩
      · simp [hw2, ht2, hs6]
      · intro i hi
        simp [hk1, hk2, ho6] at hi
        rcases hi with hi | hi | hi
        · exact Or.inl hi.2
        · exact Or.inr hi
        · exact Or.inl hi.2
      · intro _
        simp [ho6]
    · by_cases h5 : (command_transfer q 0x05 (-1) [] 1 (_waitForReady q s6).2).1 = 0
      · refine ⟨Event.printf "_writeEnable()\n" [] :: o1 ++ out6 ++ o2
          ++ [transferEvent q 0x05 (-1) [] 1 (_waitForReady q s6).2], ?_, ?_, ?_⟩
        · rw [if_neg hw2, if_neg (fun h => h h5)]
          simp [ht2, hs6]
        · intro i hi
          simp [hk1, hk2, ho6] at hi
          rcases hi with hi | hi | hi | hi
          · exact Or.inl hi.2
          · exact Or.inr hi
          · exact Or.inl hi.2
          · exact Or.inl hi
        · intro _
          simp [ho6]
      · refine ⟨Event.printf "_writeEnable()\n" [] :: o1 ++ out6 ++ o2
          ++ [transferEvent q 0x05 (-1) [] 1 (_waitForReady q s6).2,
              Event.printf "ERROR: command_transfer() status: %d\n"
                [(q.command_transfer (_waitForReady q s6).2.trace 0x05 (-1) [] 1).1]], ?_, ?_, ?_⟩
        · rw [if_neg hw2, if_pos h5]
          simp [ht2, hs6]
        · intro i hi
          simp [hk1, hk2, ho6] at hi
          rcases hi with hi | hi | hi | hi
          · exact Or.inl hi.2
          · exact Or.inr hi
          · exact Or.inl hi.2
          · exact Or.inl hi
        · intro _
          simp [ho6]


/-! ## `readStatusRegister` and `configureQSPI` -/

theorem printStatus1_trace (b : Nat) (s : State) :
    (printStatus1 b s).trace = s.trace ++
      [Event.printf "Status Register 1: 0x%02x\n" [(b : Int)],
       Event.printf "    Write in Progress  (WIP): %d\n" [flag b 0x01],
       Event.printf "    Write Enable Latch (WEL): %d\n" [flag b 0x02],
       Event.printf "    *BP0: %d\n" [flag b 0x04],
       Event.printf "    *BP1: %d\n" [flag b 0x08],
       Event.printf "    *BP2: %d\n" [flag b 0x10],
       Event.printf "    *BP3: %d\n" [flag b 0x20],
       Event.printf "    *BP4: %d\n" [flag b 0x40],
       Event.printf "    *Status Register Protect (SRP0): %d\n" [flag b 0x80]] := by
  simp [printStatus1]

theorem printStatus2_trace (b : Nat) (s : State) :
    (printStatus2 b s).trace = s.trace ++
      [Event.printf "Status Register 2: 0x%02x\n" [(b : Int)],
       Event.printf "    *Status Register Protect (SRP1): %d\n" [flag b 0x01],
       Event.printf "    *Quad Enable (QE): %d\n" [flag b 0x02],
       Event.printf "    SUS2: %d\n" [flag b 0x04],
       Event.printf "    LB1: %d\n" [flag b 0x08],
       Event.printf "    LB2: %d\n" [flag b 0x10],
       Event.printf "    LB3: %d\n" [flag b 0x20],
       Event.printf "    CMP: %d\n" [flag b 0x40],
       Event.printf "    SUS2: %d\n" [flag b 0x80]] := by
  simp [printStatus2]

theorem printStatus3_trace (b : Nat) (s : State) :
    (printStatus3 b s).trace = s.trace ++
      [Event.printf "Status Register 3: 0x%02x\n" [(b : Int)],
       Event.printf "    DRV0: %d\n" [flag b 0x20],
       Event.printf "    DRV1: %d\n" [flag b 0x40],
       Event.printf "\n" []] := by
  simp [printStatus3]

/-- Each printed flag of a byte is the corresponding bit of the byte. -/
theorem flag_eq_bit (b : Nat) :
    flag b 0x01 = ((b % 2 : Nat) : Int) ∧ flag b 0x02 = ((b / 2 % 2 : Nat) : Int) ∧
    flag b 0x04 = ((b / 4 % 2 : Nat) : Int) ∧ flag b 0x08 = ((b / 8 % 2 : Nat) : Int) ∧
    flag b 0x10 = ((b / 16 % 2 : Nat) : Int) ∧ flag b 0x20 = ((b / 32 % 2 : Nat) : Int) ∧
    flag b 0x40 = ((b / 64 % 2 : Nat) : Int) ∧ flag b 0x80 = ((b / 128 % 2 : Nat) : Int) := by
  have key : ∀ k, flag b (2 ^ k) = ((b / 2 ^ k % 2 : Nat) : Int) := by
    intro k
    unfold flag
    rw [Nat.and_two_pow, Nat.testBit_to_div_mod]
    rcases Nat.mod_two_eq_zero_or_one (b / 2 ^ k) with h2 | h2 <;> simp [h2]
  have h0 := key 0
  have h1 := key 1
  exact ⟨by simpa using h0, by simpa using h1, key 2, key 3, key 4, key 5, key 6, key 7⟩


/-- `readStatusRegister` only adds to the record, and the only commands it sends are
the three status-register reads. -/
theorem readStatusRegister_trace (q : QSPI) (s : State) :
    ∃ out, (readStatusRegister q s).trace = s.trace ++ out ∧
      ∀ i ∈ transfers out, i = 0x05 ∨ i = 0x35 ∨ i = 0x15 := by
  unfold readStatusRegister
  simp only []
  split
  · exact ⟨_, by simp only [printf_trace, command_transfer_trace, List.append_assoc]; rfl,
      by simp⟩
  · split
    · exact ⟨_, by simp only [printf_trace, command_transfer_trace, printStatus1_trace,
        List.append_assoc]; rfl, by simp⟩
    · split
      · exact ⟨_, by simp only [printf_trace, command_transfer_trace, printStatus1_trace,
          printStatus2_trace, List.append_assoc]; rfl, by simp⟩
      · exact ⟨_, by simp only [printf_trace, command_transfer_trace, printStatus1_trace,
          printStatus2_trace, printStatus3_trace, List.append_assoc]; rfl, by simp⟩

/-- `configureQSPI` only adds to the record and sends no command at all. -/
theorem configureQSPI_trace (q : QSPI) (s : State) :
    ∃ out, (configureQSPI q s).2.trace = s.trace ++ out ∧ transfers out = [] := by
  unfold configureQSPI
  simp only []
  split
  · exact ⟨_, by simp only [printf_trace, List.append_assoc]; rfl, by rfl⟩
  · split
    · exact ⟨_, by simp only [printf_trace, List.append_assoc]; rfl, by rfl⟩
    · exact ⟨_, by simp only [List.append_assoc]; rfl, by rfl⟩


/-! ## `resetFlashProtection` -/

/-- When its first readiness wait fails, `resetFlashProtection` does nothing beyond
that wait and two messages. -/
theorem resetFlashProtection_of_not_ready (q : QSPI) (s : State)
    (h : (_waitForReady q (printf "resetFlashProtection()\n" [] s)).1 = false) :
    resetFlashProtection q s
      = printf "ERROR: not ready (WIP==1)\n" []
          (_waitForReady q (printf "resetFlashProtection()\n" [] s)).2 := by
  simp [resetFlashProtection, h]

/-- When the first readiness wait fails, no command other than reads of status
register 1 is sent. -/
theorem resetFlashProtection_not_ready_trace (q : QSPI) (s : State)
    (h : (_waitForReady q (printf "resetFlashProtection()\n" [] s)).1 = false) :
    ∃ out k, (resetFlashProtection q s).trace = s.trace ++ out ∧
      transfers out = List.replicate k 0x05 := by
  obtain ⟨o1, k1, ht1, hk1, -, -⟩ := waitForReady_trace q (printf "resetFlashProtection()\n" [] s)
  refine ⟨Event.printf "resetFlashProtection()\n" [] :: o1
    ++ [Event.printf "ERROR: not ready (WIP==1)\n" []], k1, ?_, ?_⟩
  · rw [resetFlashProtection_of_not_ready q s h]
    simp [ht1]
  · simp [hk1]

/-- When the first readiness wait succeeds, the record splits around the one
write of status register 1. -/
theorem resetFlashProtection_ready_trace (q : QSPI) (s : State)
    (h : (_waitForReady q (printf "resetFlashProtection()\n" [] s)).1 = true) :
    ∃ pre st rx post,
      (resetFlashProtection q s).trace
        = s.trace ++ (pre ++ Event.command_transfer 0x01 (-1) [0x00] 0 st rx :: post) ∧
      0x01 ∉ transfers pre ∧ 0x01 ∉ transfers post ∧
      ((_waitForReady q (printf "_writeEnable()\n" []
          (_waitForReady q (printf "resetFlashProtection()\n" [] s)).2)).1 = true →
        0x06 ∈ transfers pre) := by
  obtain ⟨o1, k1, ht1, hk1, -, -⟩ := waitForReady_trace q (printf "resetFlashProtection()\n" [] s)
  obtain ⟨oe, hte, hoe, h6⟩ :=
    writeEnable_trace q (_waitForReady q (printf "resetFlashProtection()\n" [] s)).2
  have hw : ¬ (_waitForReady q (printf "resetFlashProtection()\n" [] s)).1 = false := by
    rw [h]; decide
  -- the state in which the second readiness wait starts
  have hrun : ∃ s1 o1', s1.trace = (_writeEnable q
        (_waitForReady q (printf "resetFlashProtection()\n" [] s)).2).trace
        ++ (transferEvent q 0x01 (-1) [0x00] 0 (_writeEnable q
          (_waitForReady q (printf "resetFlashProtection()\n" [] s)).2) :: o1') ∧
      transfers o1' = [] ∧
      resetFlashProtection q s =
        (if (_waitForReady q s1).1 = false then
          printf "ERROR: not ready (WIP==1)\n" [] (_waitForReady q s1).2
        else (_waitForReady q s1).2) := by
    by_cases h1 : (q.command_transfer (_writeEnable q
        (_waitForReady q (printf "resetFlashProtection()\n" [] s)).2).trace 0x01 (-1) [0x00] 0).1 = 0
    · refine ⟨(command_transfer q 0x01 (-1) [0x00] 0 (_writeEnable q
        (_waitForReady q (printf "resetFlashProtection()\n" [] s)).2)).2.2, [], ?_, ?_, ?_⟩
      · simp
      · simp
      · simp only [resetFlashProtection, if_neg hw]
        simp [h1]
    · refine ⟨printf "command_transfer: %d\n" [(q.command_transfer (_writeEnable q
          (_waitForReady q (printf "resetFlashProtection()\n" [] s)).2).trace 0x01 (-1) [0x00] 0).1]
        (command_transfer q 0x01 (-1) [0x00] 0 (_writeEnable q
        (_waitForReady q (printf "resetFlashProtection()\n" [] s)).2)).2.2,
        [Event.printf "command_transfer: %d\n" [(q.command_transfer (_writeEnable q
          (_waitForReady q (printf "resetFlashProtection()\n" [] s)).2).trace 0x01 (-1) [0x00] 0).1]],
        ?_, ?_, ?_⟩
      · simp
      · simp
      · simp only [resetFlashProtection, if_neg hw]
        simp [h1]
  obtain ⟨s1, o1', hs1, ho1', hrun⟩ := hrun
  obtain ⟨o2, k2, ht2, hk2, -, -⟩ := waitForReady_trace q s1
  have hpre : (1 : Nat) ∉ transfers (Event.printf "resetFlashProtection()\n" [] :: o1 ++ oe) := by
    intro hi
    simp [hk1] at hi
    rcases hoe 1 hi with h' | h' <;> omega
  refine ⟨Event.printf "resetFlashProtection()\n" [] :: o1 ++ oe,
    (q.command_transfer (_writeEnable q
      (_waitForReady q (printf "resetFlashProtection()\n" [] s)).2).trace 0x01 (-1) [0x00] 0).1,
    (q.command_transfer (_writeEnable q
      (_waitForReady q (printf "resetFlashProtection()\n" [] s)).2).trace 0x01 (-1) [0x00] 0).2 % 256,
    o1' ++ o2 ++ (if (_waitForReady q s1).1 = false
      then [Event.printf "ERROR: not ready (WIP==1)\n" []] else []), ?_, hpre, ?_, ?_⟩
  · rw [hrun]
    by_cases hw2 : (_waitForReady q s1).1 = false
    · rw [if_pos hw2, if_pos hw2]
      simp [ht2, hs1, hte, ht1, transferEvent]
    · rw [if_neg hw2, if_neg hw2]
      simp [ht2, hs1, hte, ht1, transferEvent]
  · intro hi
    by_cases hw2 : (_waitForReady q s1).1 = false
    · simp [hw2, ho1', hk2] at hi
    · simp [hw2, ho1', hk2] at hi
  · intro hwe
    have := h6 hwe
    simp [this]


/-! ## The idle chip on a healthy bus -/

@[simp] theorem busOps_nil : busOps [] = [] := rfl

@[simp] theorem busOps_append (a b : List Event) : busOps (a ++ b) = busOps a ++ busOps b := by
  simp [busOps, List.filterMap_append]

@[simp] theorem busOps_cons_transferEvent (q : QSPI) (i : Nat) (a : Int) (tx : List Nat)
    (n : Nat) (s : State) (l : List Event) :
    busOps (transferEvent q i a tx n s :: l) = BusOp.command i a tx n :: busOps l := rfl

@[simp] theorem busOps_cons_printf (fmt : String) (args : List Int) (l : List Event) :
    busOps (Event.printf fmt args :: l) = busOps l := rfl

@[simp] theorem busOps_cons_serial_begin (baud : Nat) (l : List Event) :
    busOps (Event.serial_begin baud :: l) = busOps l := rfl

@[simp] theorem busOps_cons_configure_format (st : Int) (l : List Event) :
    busOps (Event.configure_format st :: l) = BusOp.configure_format :: busOps l := rfl

@[simp] theorem busOps_cons_set_frequency (st : Int) (l : List Event) :
    busOps (Event.set_frequency st :: l) = BusOp.set_frequency :: busOps l := rfl

@[simp] theorem busOps_cons_pinMode (l : List Event) :
    busOps (Event.pinMode_QSPI_SO2_INPUT :: l) = BusOp.pinMode :: busOps l := rfl

theorem busOps_waitForReady_idle (q : QSPI)
    (hst : ∀ h i a tx n, (q.command_transfer h i a tx n).1 = 0)
    (hrdy : ∀ h a tx n, (q.command_transfer h 0x05 a tx n).2 % 2 = 0) (s : State) :
    (_waitForReady q s).1 = true ∧
      busOps (_waitForReady q s).2.trace = busOps s.trace ++ [BusOp.command 0x05 (-1) [] 1] := by
  rw [waitForReady_of_ready q s (hst _ _ _ _ _) (hrdy _ _ _ _)]
  simp

theorem busOps_writeEnable_idle (q : QSPI)
    (hst : ∀ h i a tx n, (q.command_transfer h i a tx n).1 = 0)
    (hrdy : ∀ h a tx n, (q.command_transfer h 0x05 a tx n).2 % 2 = 0) (s : State) :
    busOps (_writeEnable q s).trace = busOps s.trace ++
      [BusOp.command 0x05 (-1) [] 1, BusOp.command 0x06 (-1) [] 0,
       BusOp.command 0x05 (-1) [] 1, BusOp.command 0x05 (-1) [] 1] := by
  have hw : ∀ s, _waitForReady q s = (true, (command_transfer q 0x05 (-1) [] 1 s).2.2) :=
    fun s => waitForReady_of_ready q s (hst _ _ _ _ _) (hrdy _ _ _ _)
  simp [_writeEnable, hw, hst]

theorem busOps_readStatusRegister_idle (q : QSPI)
    (hst : ∀ h i a tx n, (q.command_transfer h i a tx n).1 = 0) (s : State) :
    busOps (readStatusRegister q s).trace = busOps s.trace ++
      [BusOp.command 0x05 (-1) [] 1, BusOp.command 0x35 (-1) [] 1,
       BusOp.command 0x15 (-1) [] 1] := by
  simp [readStatusRegister, hst, printStatus1_trace, printStatus2_trace, printStatus3_trace]

theorem busOps_resetFlashProtection_idle (q : QSPI)
    (hst : ∀ h i a tx n, (q.command_transfer h i a tx n).1 = 0)
    (hrdy : ∀ h a tx n, (q.command_transfer h 0x05 a tx n).2 % 2 = 0) (s : State) :
    busOps (resetFlashProtection q s).trace = busOps s.trace ++
      [BusOp.command 0x05 (-1) [] 1,
       BusOp.command 0x05 (-1) [] 1, BusOp.command 0x06 (-1) [] 0,
       BusOp.command 0x05 (-1) [] 1, BusOp.command 0x05 (-1) [] 1,
       BusOp.command 0x01 (-1) [0x00] 0,
       BusOp.command 0x05 (-1) [] 1] := by
  have hw : ∀ s, _waitForReady q s = (true, (command_transfer q 0x05 (-1) [] 1 s).2.2) :=
    fun s => waitForReady_of_ready q s (hst _ _ _ _ _) (hrdy _ _ _ _)
  simp [resetFlashProtection, hw, hst, busOps_writeEnable_idle q hst hrdy]

theorem busOps_configureQSPI_idle (q : QSPI)
    (hcf : ∀ h, q.configure_format h = 0) (hsf : ∀ h, q.set_frequency h = 0) (s : State) :
    busOps (configureQSPI q s).2.trace = busOps s.trace ++
      [BusOp.configure_format, BusOp.set_frequency] := by
  simp [configureQSPI, hcf, hsf]

/-- After a successful first read, `readStatusRegister` dumps register 1 and then
only adds to the record. -/
theorem readStatusRegister_of_ok (q : QSPI) (s : State)
    (h0 : (q.command_transfer (s.trace ++ [Event.printf "readStatusRegister()\n" []])
      0x05 (-1) [] 1).1 = 0) :
    ∃ rest, (readStatusRegister q s).trace
      = (printStatus1 ((q.command_transfer (s.trace ++ [Event.printf "readStatusRegister()\n" []])
            0x05 (-1) [] 1).2 % 256)
          (command_transfer q 0x05 (-1) [] 1 (printf "readStatusRegister()\n" [] s)).2.2).trace
        ++ rest := by
  have h0' : ¬ (command_transfer q 0x05 (-1) [] 1 (printf "readStatusRegister()\n" [] s)).1 ≠ 0 :=
    fun h => h h0
  unfold readStatusRegister
  simp only []
  rw [if_neg h0']
  split
  · exact ⟨_, by simp only [printf_trace, command_transfer_trace, List.append_assoc]; rfl⟩
  · split
    · exact ⟨_, by simp only [printf_trace, command_transfer_trace, printStatus2_trace,
        List.append_assoc]; rfl⟩
    · exact ⟨_, by simp only [printf_trace, command_transfer_trace, printStatus2_trace,
        printStatus3_trace, List.append_assoc]; rfl⟩

/-- A recorded command transfer shows up among the opcodes of the record. -/
theorem opcode_mem_transfers {i : Nat} {a : Int} {tx : List Nat} {n : Nat} {st : Int} {rx : Nat}
    {l : List Event} (h : Event.command_transfer i a tx n st rx ∈ l) : i ∈ transfers l :=
  List.mem_filterMap.mpr ⟨_, h, rfl⟩

/-- A completed `_writeEnable` got past its first readiness wait. -/
theorem writeEnableCompleted_first_wait (q : QSPI) (s : State)
    (h : writeEnableCompleted q s = true) :
    (_waitForReady q (printf "_writeEnable()\n" [] s)).1 = true := by
  by_cases hw : (_waitForReady q (printf "_writeEnable()\n" [] s)).1 = false
  · simp [writeEnableCompleted, hw] at h
  · simpa using hw

/-- On a bus whose second command transfer fails, the readiness wait inside
`_writeEnable` fails, `_writeEnable` returns without sending the write-enable
opcode, and `resetFlashProtection` still sends the write of status register 1:
`_writeEnable` has no way to report its failure to the caller. -/
theorem resetFlashProtection_writes_after_failed_writeEnable :
    transfers (resetFlashProtection flakyBus State.boot).trace = [0x05, 0x05, 0x01, 0x05] := by
  decide

/-! ## The claims -/

/-- C1, counterexample.  On a bus whose every transfer fails, one invocation of
`resetFlashProtection` sends a single read of status register 1 and returns: it
sends no write-status-register-1 command (opcode 0x01) and no write-enable
(opcode 0x06). -/
theorem resetFlashProtection_not_exactly_one_write :
    transfers (resetFlashProtection deadBus State.boot).trace = [0x05] := by
  decide

/-- C1, amended.  For every transport, one invocation of `resetFlashProtection`
sends at most one write-status-register-1 command (opcode 0x01), and any it sends
has no address and the single payload byte 0x00.  It sends none when its first
readiness wait fails.  When that wait succeeds and the nested `_writeEnable` gets
through without an error, it sends exactly one, and a write-enable command
(opcode 0x06) was sent earlier in the same invocation. -/
theorem resetFlashProtection_write_status1 (q : QSPI) (s : State) :
    (∃ out, (resetFlashProtection q s).trace = s.trace ++ out ∧
      (transfers out).count 0x01 ≤ 1 ∧
      ∀ a tx n st rx, Event.command_transfer 0x01 a tx n st rx ∈ out →
        a = -1 ∧ tx = [0x00] ∧ n = 0) ∧
    ((_waitForReady q (printf "resetFlashProtection()\n" [] s)).1 = false →
      ∃ out, (resetFlashProtection q s).trace = s.trace ++ out ∧ 0x01 ∉ transfers out) ∧
    ((_waitForReady q (printf "resetFlashProtection()\n" [] s)).1 = true →
      writeEnableCompleted q (_waitForReady q (printf "resetFlashProtection()\n" [] s)).2 = true →
      ∃ pre st rx post,
        (resetFlashProtection q s).trace
          = s.trace ++ (pre ++ Event.command_transfer 0x01 (-1) [0x00] 0 st rx :: post) ∧
        0x01 ∉ transfers pre ∧ 0x01 ∉ transfers post ∧ 0x06 ∈ transfers pre) := by
  have hnot : (_waitForReady q (printf "resetFlashProtection()\n" [] s)).1 = false →
      ∃ out, (resetFlashProtection q s).trace = s.trace ++ out ∧ 0x01 ∉ transfers out := by
    intro h
    obtain ⟨out, k, ht, hk⟩ := resetFlashProtection_not_ready_trace q s h
    refine ⟨out, ht, fun hi => ?_⟩
    rw [hk] at hi
    have := mem_replicate_five hi
    omega
  refine ⟨?_, hnot, fun h hc => ?_⟩
  · cases h : (_waitForReady q (printf "resetFlashProtection()\n" [] s)).1
    · obtain ⟨out, ht, hno⟩ := hnot h
      refine ⟨out, ht, ?_, fun a tx n st rx hm => absurd (opcode_mem_transfers hm) hno⟩
      rw [List.count_eq_zero_of_not_mem hno]
      omega
    · obtain ⟨pre, st, rx, post, ht, hpre, hpost, -⟩ := resetFlashProtection_ready_trace q s h
      refine ⟨_, ht, ?_, fun a tx n st' rx' hm => ?_⟩
      · simp [List.count_eq_zero_of_not_mem hpre, List.count_eq_zero_of_not_mem hpost]
      · rcases List.mem_append.mp hm with hm | hm
        · exact absurd (opcode_mem_transfers hm) hpre
        · rcases List.mem_cons.mp hm with hm | hm
          · simp at hm
            exact ⟨hm.1, hm.2.1, hm.2.2.1⟩
          · exact absurd (opcode_mem_transfers hm) hpost
  · obtain ⟨pre, st, rx, post, ht, hpre, hpost, h6⟩ := resetFlashProtection_ready_trace q s h
    exact ⟨pre, st, rx, post, ht, hpre, hpost, h6 (writeEnableCompleted_first_wait q _ hc)⟩

/-- C1, witness: the dead bus fails the first wait; on the idle bus the first wait
succeeds and `_writeEnable` completes. -/
theorem resetFlashProtection_write_status1_witness :
    (∃ out, (resetFlashProtection deadBus State.boot).trace = State.boot.trace ++ out ∧
      0x01 ∉ transfers out) ∧
    (∃ pre st rx post,
      (resetFlashProtection idleBus State.boot).trace
        = State.boot.trace ++ (pre ++ Event.command_transfer 0x01 (-1) [0x00] 0 st rx :: post) ∧
      0x01 ∉ transfers pre ∧ 0x01 ∉ transfers post ∧ 0x06 ∈ transfers pre) :=
  ⟨(resetFlashProtection_write_status1 deadBus State.boot).2.1 (by decide),
   (resetFlashProtection_write_status1 idleBus State.boot).2.2 (by decide) (by decide)⟩

set_option maxRecDepth 100000 in
/-- C2, the code at the failing input.  `configure_format` reports an error, so
`configureQSPI` returns false; `setup` nevertheless remaps the pin and issues
twenty command transfers, the write of status register 1 among them. -/
theorem setup_continues_after_failed_configuration :
    (configureQSPI unconfiguredBus
      (printf "start\n" [] (emit (Event.serial_begin 115200) State.boot))).1 = false ∧
    busOps (setup unconfiguredBus State.boot).trace =
      [BusOp.configure_format, BusOp.pinMode,
       BusOp.command 0x05 (-1) [] 1, BusOp.command 0x35 (-1) [] 1, BusOp.command 0x15 (-1) [] 1,
       BusOp.command 0x05 (-1) [] 1, BusOp.command 0x06 (-1) [] 0,
       BusOp.command 0x05 (-1) [] 1, BusOp.command 0x05 (-1) [] 1,
       BusOp.command 0x05 (-1) [] 1, BusOp.command 0x35 (-1) [] 1, BusOp.command 0x15 (-1) [] 1,
       BusOp.command 0x05 (-1) [] 1,
       BusOp.command 0x05 (-1) [] 1, BusOp.command 0x06 (-1) [] 0,
       BusOp.command 0x05 (-1) [] 1, BusOp.command 0x05 (-1) [] 1,
       BusOp.command 0x01 (-1) [0x00] 0,
       BusOp.command 0x05 (-1) [] 1,
       BusOp.command 0x05 (-1) [] 1, BusOp.command 0x35 (-1) [] 1,
       BusOp.command 0x15 (-1) [] 1] := by
  decide

/-- C3.  For every transport `_waitForReady` returns, having issued at most 10000
command transfers, every one a read of status register 1 (opcode 0x05); when
every such read succeeds with bit 0 set it returns false after exactly 10000 of
them. -/
theorem waitForReady_bounded (q : QSPI) (s : State) :
    (∃ out k, (_waitForReady q s).2.trace = s.trace ++ out ∧
      transfers out = List.replicate k 0x05 ∧ k ≤ 10000) ∧
    ((∀ h a tx n, (q.command_transfer h 0x05 a tx n).1 = 0 ∧
        (q.command_transfer h 0x05 a tx n).2 % 2 = 1) →
      (_waitForReady q s).1 = false ∧
      ∃ out, (_waitForReady q s).2.trace = s.trace ++ out ∧
        transfers out = List.replicate 10000 0x05) := by
  refine ⟨?_, fun hb => waitLoop_busy q hb (10000 - 1) s⟩
  obtain ⟨out, k, ht, hk, -, hle⟩ := waitForReady_trace q s
  exact ⟨out, k, ht, hk, hle⟩

/-- C3, witness: a bus that always answers "busy". -/
theorem waitForReady_bounded_witness :
    (_waitForReady busyBus State.boot).1 = false ∧
    ∃ out, (_waitForReady busyBus State.boot).2.trace = State.boot.trace ++ out ∧
      transfers out = List.replicate 10000 0x05 :=
  (waitForReady_bounded busyBus State.boot).2 (fun _ _ _ _ => ⟨rfl, rfl⟩)

/-- C4, the code at the failing input.  The write-enable transfer (opcode 0x06)
returns status -1; `_writeEnable` prints the status and goes on to issue two more
command transfers. -/
theorem writeEnable_continues_after_failed_wren :
    (_writeEnable wrenRejectingBus State.boot).trace =
      [Event.printf "_writeEnable()\n" [],
       Event.command_transfer 0x05 (-1) [] 1 0 0x00,
       Event.command_transfer 0x06 (-1) [] 0 (-1) 0x00,
       Event.printf "command_transfer: %d\n" [-1],
       Event.command_transfer 0x05 (-1) [] 1 0 0x00,
       Event.command_transfer 0x05 (-1) [] 1 0 0x00] := by
  decide

/-- C5.  For every transport, when the first readiness wait of `_writeEnable`
fails, the command transfers of that invocation are all reads of status register
1 (opcode 0x05); the write-enable opcode 0x06 is not among them. -/
theorem writeEnable_no_wren_when_not_ready (q : QSPI) (s : State)
    (h : (_waitForReady q (printf "_writeEnable()\n" [] s)).1 = false) :
    ∃ out k, (_writeEnable q s).trace = s.trace ++ out ∧
      transfers out = List.replicate k 0x05 ∧ 0x06 ∉ transfers out := by
  obtain ⟨o1, k1, ht1, hk1, -, -⟩ := waitForReady_trace q (printf "_writeEnable()\n" [] s)
  have ht : transfers (Event.printf "_writeEnable()\n" [] :: o1
      ++ [Event.printf "ERROR: not ready (WIP==1)\n" []]) = List.replicate k1 0x05 := by
    simp [hk1]
  refine ⟨Event.printf "_writeEnable()\n" [] :: o1
    ++ [Event.printf "ERROR: not ready (WIP==1)\n" []], k1, ?_, ht, fun hi => ?_⟩
  · rw [writeEnable_of_not_ready q s h]
    simp [ht1]
  · rw [ht] at hi
    have := mem_replicate_five hi
    omega

/-- C5, witness: on the dead bus the first wait fails on a transfer error. -/
theorem writeEnable_no_wren_when_not_ready_witness :
    ∃ out k, (_writeEnable deadBus State.boot).trace = State.boot.trace ++ out ∧
      transfers out = List.replicate k 0x05 ∧ 0x06 ∉ transfers out :=
  writeEnable_no_wren_when_not_ready deadBus State.boot (by decide)

/-- C6.  When every read of status register 1 succeeds and returns a byte with bit
0 (busy) set, a full run of `setup` never sends the write-status-register-1
command (opcode 0x01).  Nothing is assumed about the other calls, so this covers
the transport that succeeds on every call. -/
theorem setup_busy_never_writes_status1 (q : QSPI)
    (hb : ∀ h a tx n, (q.command_transfer h 0x05 a tx n).1 = 0 ∧
      (q.command_transfer h 0x05 a tx n).2 % 2 = 1)
    (s : State) :
    ∃ out, (setup q s).trace = s.trace ++ out ∧ 0x01 ∉ transfers out := by
  unfold setup
  simp only []
  obtain ⟨oc, hc, hct⟩ := configureQSPI_trace q (printf "start\n" [] (emit (Event.serial_begin 115200) s))
  generalize (configureQSPI q (printf "start\n" [] (emit (Event.serial_begin 115200) s))).2 = sc at *
  obtain ⟨o1, h1, h1t⟩ := readStatusRegister_trace q (printf "---- current status ----\n" [] (pinMode sc))
  generalize readStatusRegister q (printf "---- current status ----\n" [] (pinMode sc)) = s1 at *
  obtain ⟨oe, he, het, -⟩ :=
    writeEnable_trace q (printf "---- write enable + checking WEL bit ----\n" [] s1)
  generalize _writeEnable q (printf "---- write enable + checking WEL bit ----\n" [] s1) = se at *
  obtain ⟨o2, h2, h2t⟩ := readStatusRegister_trace q se
  generalize readStatusRegister q se = s2 at *
  obtain ⟨orp, k, hr, hrt⟩ := resetFlashProtection_not_ready_trace q
    (printf "---- reset flash protection ----\n" [] s2) (waitLoop_busy q hb _ _).1
  generalize resetFlashProtection q (printf "---- reset flash protection ----\n" [] s2) = sr at *
  obtain ⟨o3, h3, h3t⟩ := readStatusRegister_trace q (printf "---- verify status register ----\n" [] sr)
  generalize readStatusRegister q (printf "---- verify status register ----\n" [] sr) = s3 at *
  refine ⟨Event.serial_begin 115200 :: Event.printf "start\n" [] :: oc
    ++ Event.pinMode_QSPI_SO2_INPUT :: Event.printf "---- current status ----\n" [] :: o1
    ++ Event.printf "---- write enable + checking WEL bit ----\n" [] :: oe ++ o2
    ++ Event.printf "---- reset flash protection ----\n" [] :: orp
    ++ Event.printf "---- verify status register ----\n" [] :: o3
    ++ [Event.printf "---end---\n" []], ?_, ?_⟩
  · simp [h3, hr, h2, he, h1, hc]
  · intro hi
    simp [hct, hrt] at hi
    rcases hi with hi | hi | hi | hi
    · rcases h1t 1 hi with h | h | h <;> omega
    · rcases het 1 hi with h | h <;> omega
    · rcases h2t 1 hi with h | h | h <;> omega
    · rcases h3t 1 hi with h | h | h <;> omega

/-- C6, witness: the bus that succeeds on every call and always answers "busy". -/
theorem setup_busy_never_writes_status1_witness :
    ∃ out, (setup busyBus State.boot).trace = State.boot.trace ++ out ∧
      0x01 ∉ transfers out :=
  setup_busy_never_writes_status1 busyBus (fun _ _ _ _ => ⟨rfl, rfl⟩) State.boot

/-- C7.  For every transport, if a command transfer recorded during
`_waitForReady` came back with a non-zero status, then `_waitForReady` returns
false and the only thing it did after that transfer is print the error message:
no further transfer, no delay, whatever came before the failing read and
whatever byte the transport left in the buffer. -/
theorem waitForReady_stops_on_transfer_error (q : QSPI) (s : State) (pre post : List Event)
    (i : Nat) (a : Int) (tx : List Nat) (n : Nat) (st : Int) (rx : Nat)
    (h : (_waitForReady q s).2.trace
      = s.trace ++ (pre ++ Event.command_transfer i a tx n st rx :: post))
    (hst : st ≠ 0) :
    (_waitForReady q s).1 = false ∧
      post = [Event.printf "ERROR: command_transfer() status: %d\n" [st]] :=
  waitLoop_error_last q (10000 - 1) s pre post i a tx n st rx h hst

/-- C7, witness: the dead bus fails the very first read. -/
theorem waitForReady_stops_on_transfer_error_witness :
    (_waitForReady deadBus State.boot).1 = false ∧
      [Event.printf "ERROR: command_transfer() status: %d\n" [-1]]
        = [Event.printf "ERROR: command_transfer() status: %d\n" [-1]] :=
  waitForReady_stops_on_transfer_error deadBus State.boot []
    [Event.printf "ERROR: command_transfer() status: %d\n" [-1]] 0x05 (-1) [] 1 (-1) 0x00
    (by decide) (by decide)

/-- C8.  If the first read of status register 1 succeeds and returns a byte with
bit 0 clear, `_waitForReady` returns true and has recorded exactly that one command
transfer: no second transfer, no delay, no message. -/
theorem waitForReady_immediate_when_idle (q : QSPI) (s : State)
    (h0 : (q.command_transfer s.trace 0x05 (-1) [] 1).1 = 0)
    (h1 : (q.command_transfer s.trace 0x05 (-1) [] 1).2 % 2 = 0) :
    (_waitForReady q s).1 = true ∧
    (_waitForReady q s).2.trace = s.trace ++
      [Event.command_transfer 0x05 (-1) [] 1 0 ((q.command_transfer s.trace 0x05 (-1) [] 1).2 % 256)] := by
  rw [waitForReady_of_ready q s h0 h1]
  simp [transferEvent, h0]

/-- C8, witness: a chip that is idle with every protection bit set (0xFC). -/
theorem waitForReady_immediate_when_idle_witness :
    (_waitForReady protectedBus State.boot).1 = true ∧
    (_waitForReady protectedBus State.boot).2.trace = State.boot.trace ++
      [Event.command_transfer 0x05 (-1) [] 1 0
        ((protectedBus.command_transfer State.boot.trace 0x05 (-1) [] 1).2 % 256)] :=
  waitForReady_immediate_when_idle protectedBus State.boot (by decide) (by decide)

/-- C9.  Whenever the first read of `readStatusRegister` succeeds with byte `b`
(an 8-bit value), the register-1 dump is printed, and each flag it reports is one
bit of `b`, as 0 or 1: WIP = bit 0, WEL = bit 1, BP0..BP4 = bits 2..6, SRP0 = bit 7.
For `b = 0x00` every flag is 0 and for `b = 0xFF` every flag is 1. -/
theorem readStatusRegister_decodes_status1 (q : QSPI) (s : State)
    (h0 : (q.command_transfer (s.trace ++ [Event.printf "readStatusRegister()\n" []])
      0x05 (-1) [] 1).1 = 0) :
    (∃ b rest, b < 256 ∧
      b = (q.command_transfer (s.trace ++ [Event.printf "readStatusRegister()\n" []])
        0x05 (-1) [] 1).2 % 256 ∧
      (readStatusRegister q s).trace = s.trace ++
        [Event.printf "readStatusRegister()\n" [],
         Event.command_transfer 0x05 (-1) [] 1 0 b,
         Event.printf "Status Register 1: 0x%02x\n" [(b : Int)],
         Event.printf "    Write in Progress  (WIP): %d\n" [((b % 2 : Nat) : Int)],
         Event.printf "    Write Enable Latch (WEL): %d\n" [((b / 2 % 2 : Nat) : Int)],
         Event.printf "    *BP0: %d\n" [((b / 4 % 2 : Nat) : Int)],
         Event.printf "    *BP1: %d\n" [((b / 8 % 2 : Nat) : Int)],
         Event.printf "    *BP2: %d\n" [((b / 16 % 2 : Nat) : Int)],
         Event.printf "    *BP3: %d\n" [((b / 32 % 2 : Nat) : Int)],
         Event.printf "    *BP4: %d\n" [((b / 64 % 2 : Nat) : Int)],
         Event.printf "    *Status Register Protect (SRP0): %d\n" [((b / 128 % 2 : Nat) : Int)]]
        ++ rest) ∧
    [flag 0x00 0x01, flag 0x00 0x02, flag 0x00 0x04, flag 0x00 0x08,
     flag 0x00 0x10, flag 0x00 0x20, flag 0x00 0x40, flag 0x00 0x80] = [0, 0, 0, 0, 0, 0, 0, 0] ∧
    [flag 0xFF 0x01, flag 0xFF 0x02, flag 0xFF 0x04, flag 0xFF 0x08,
     flag 0xFF 0x10, flag 0xFF 0x20, flag 0xFF 0x40, flag 0xFF 0x80] = [1, 1, 1, 1, 1, 1, 1, 1] := by
  refine ⟨?_, by decide, by decide⟩
  obtain ⟨rest, hr⟩ := readStatusRegister_of_ok q s h0
  refine ⟨_, rest, Nat.mod_lt _ (by decide), rfl, ?_⟩
  rw [hr, printStatus1_trace]
  obtain ⟨f0, f1, f2, f3, f4, f5, f6, f7⟩ := flag_eq_bit
    ((q.command_transfer (s.trace ++ [Event.printf "readStatusRegister()\n" []])
        0x05 (-1) [] 1).2 % 256)
  rw [f0, f1, f2, f3, f4, f5, f6, f7]
  simp [transferEvent, h0]

/-- C9, witness: a chip that answers 0xFC (idle, every protection bit set). -/
theorem readStatusRegister_decodes_status1_witness :
    (∃ b rest, b < 256 ∧
      b = (protectedBus.command_transfer
        (State.boot.trace ++ [Event.printf "readStatusRegister()\n" []]) 0x05 (-1) [] 1).2 % 256 ∧
      (readStatusRegister protectedBus State.boot).trace = State.boot.trace ++
        [Event.printf "readStatusRegister()\n" [],
         Event.command_transfer 0x05 (-1) [] 1 0 b,
         Event.printf "Status Register 1: 0x%02x\n" [(b : Int)],
         Event.printf "    Write in Progress  (WIP): %d\n" [((b % 2 : Nat) : Int)],
         Event.printf "    Write Enable Latch (WEL): %d\n" [((b / 2 % 2 : Nat) : Int)],
         Event.printf "    *BP0: %d\n" [((b / 4 % 2 : Nat) : Int)],
         Event.printf "    *BP1: %d\n" [((b / 8 % 2 : Nat) : Int)],
         Event.printf "    *BP2: %d\n" [((b / 16 % 2 : Nat) : Int)],
         Event.printf "    *BP3: %d\n" [((b / 32 % 2 : Nat) : Int)],
         Event.printf "    *BP4: %d\n" [((b / 64 % 2 : Nat) : Int)],
         Event.printf "    *Status Register Protect (SRP0): %d\n" [((b / 128 % 2 : Nat) : Int)]]
        ++ rest) ∧
    [flag 0x00 0x01, flag 0x00 0x02, flag 0x00 0x04, flag 0x00 0x08,
     flag 0x00 0x10, flag 0x00 0x20, flag 0x00 0x40, flag 0x00 0x80] = [0, 0, 0, 0, 0, 0, 0, 0] ∧
    [flag 0xFF 0x01, flag 0xFF 0x02, flag 0xFF 0x04, flag 0xFF 0x08,
     flag 0xFF 0x10, flag 0xFF 0x20, flag 0xFF 0x40, flag 0xFF 0x80] = [1, 1, 1, 1, 1, 1, 1, 1] :=
  readStatusRegister_decodes_status1 protectedBus State.boot (by decide)

set_option maxRecDepth 100000 in
/-- C10, counterexample.  On the idle bus the bus operations of `setup` are not the
claimed sequence, and the claimed sequence is not even a subsequence of them: the
code issues no command between configuring the bus and remapping the pin. -/
theorem setup_idle_not_claimed_sequence :
    busOps (setup idleBus State.boot).trace ≠ scenarioA ∧
    ¬ List.Sublist scenarioA (busOps (setup idleBus State.boot).trace) ∧
    (busOps (setup idleBus State.boot).trace).take 3
      = [BusOp.configure_format, BusOp.set_frequency, BusOp.pinMode] := by
  decide

/-- C10, amended.  When configuration succeeds, every transfer succeeds and every
read of status register 1 returns busy = 0, the bus operations of one run of
`setup` are, in order: configure (format, then frequency), remap-pin, status1,
status2, status3, status1, wren, status1, status1, status1, status2, status3,
status1, status1, wren, status1, status1, write-status1(0x00), status1, status1,
status2, status3. -/
theorem setup_idle_bus_operations (q : QSPI)
    (hcf : ∀ h, q.configure_format h = 0) (hsf : ∀ h, q.set_frequency h = 0)
    (hst : ∀ h i a tx n, (q.command_transfer h i a tx n).1 = 0)
    (hrdy : ∀ h a tx n, (q.command_transfer h 0x05 a tx n).2 % 2 = 0) (s : State) :
    busOps (setup q s).trace = busOps s.trace ++
      [BusOp.configure_format, BusOp.set_frequency, BusOp.pinMode,
       BusOp.command 0x05 (-1) [] 1, BusOp.command 0x35 (-1) [] 1, BusOp.command 0x15 (-1) [] 1,
       BusOp.command 0x05 (-1) [] 1, BusOp.command 0x06 (-1) [] 0,
       BusOp.command 0x05 (-1) [] 1, BusOp.command 0x05 (-1) [] 1,
       BusOp.command 0x05 (-1) [] 1, BusOp.command 0x35 (-1) [] 1, BusOp.command 0x15 (-1) [] 1,
       BusOp.command 0x05 (-1) [] 1,
       BusOp.command 0x05 (-1) [] 1, BusOp.command 0x06 (-1) [] 0,
       BusOp.command 0x05 (-1) [] 1, BusOp.command 0x05 (-1) [] 1,
       BusOp.command 0x01 (-1) [0x00] 0,
       BusOp.command 0x05 (-1) [] 1,
       BusOp.command 0x05 (-1) [] 1, BusOp.command 0x35 (-1) [] 1, BusOp.command 0x15 (-1) [] 1] := by
  simp only [setup, printf_trace, busOps_append, busOps_cons_printf, busOps_nil,
    List.append_nil, busOps_readStatusRegister_idle q hst,
    busOps_resetFlashProtection_idle q hst hrdy, busOps_writeEnable_idle q hst hrdy,
    pinMode_trace, busOps_cons_pinMode, busOps_configureQSPI_idle q hcf hsf, emit_trace,
    busOps_cons_serial_begin, List.append_assoc, List.cons_append, List.nil_append]

/-- C10, witness: the idle bus. -/
theorem setup_idle_bus_operations_witness :
    busOps (setup idleBus State.boot).trace = busOps State.boot.trace ++
      [BusOp.configure_format, BusOp.set_frequency, BusOp.pinMode,
       BusOp.command 0x05 (-1) [] 1, BusOp.command 0x35 (-1) [] 1, BusOp.command 0x15 (-1) [] 1,
       BusOp.command 0x05 (-1) [] 1, BusOp.command 0x06 (-1) [] 0,
       BusOp.command 0x05 (-1) [] 1, BusOp.command 0x05 (-1) [] 1,
       BusOp.command 0x05 (-1) [] 1, BusOp.command 0x35 (-1) [] 1, BusOp.command 0x15 (-1) [] 1,
       BusOp.command 0x05 (-1) [] 1,
       BusOp.command 0x05 (-1) [] 1, BusOp.command 0x06 (-1) [] 0,
       BusOp.command 0x05 (-1) [] 1, BusOp.command 0x05 (-1) [] 1,
       BusOp.command 0x01 (-1) [0x00] 0,
       BusOp.command 0x05 (-1) [] 1,
       BusOp.command 0x05 (-1) [] 1, BusOp.command 0x35 (-1) [] 1, BusOp.command 0x15 (-1) [] 1] :=
  setup_idle_bus_operations idleBus (fun _ => rfl) (fun _ => rfl) (fun _ _ _ _ _ => rfl)
    (fun _ _ _ _ => rfl) State.boot

end UnlockOptaNORFlash
